import Mathlib

/-!
Verification development for the unified-migration-health-assistant
repository.  The core logic under scrutiny lives in src/app.py (intent
router, two backend adapters, the pipe-table extractor and the
route-both orchestration branch), src/unified_migration_assistant.py
(input validation before the knowledge-base call) and
src/unified_migration_assistant_fixed_buttons.py (a third adapter).

Python strings are modelled as lists of characters (`PyStr`); the string
primitives the source uses (lower, strip, split, join, replace and the
`in` substring test) are defined below with Python's semantics.  Calls
into AWS (qbusiness chat_sync, bedrock retrieve_and_generate) are
modelled as function parameters returning `Except`: an `Except.error e`
models the call raising an exception whose `str(e)` is `e`.  The ambient
Streamlit session state used for the conversation id is passed and
returned explicitly.
-/

/-- Python strings, modelled as lists of characters. -/
abbrev PyStr := List Char

/-- Conversion from a Lean string literal to the Python string model. -/
def pyS (s : String) : PyStr := s.toList

/-- Python str.lower() for the ASCII range used throughout this code base. -/
def pyLower (s : PyStr) : PyStr := s.map Char.toLower

/-- Characters removed by Python str.strip() with no argument. -/
def isPySpace (c : Char) : Bool :=
  c == ' ' || c == '\t' || c == '\n' || c == '\r' || c == '\x0b' || c == '\x0c'

/-- Python str.strip(). -/
def pyStrip (s : PyStr) : PyStr :=
  ((s.dropWhile isPySpace).reverse.dropWhile isPySpace).reverse

/-- Python str.split(sep) for a one-character separator: keeps empty parts,
and the empty string splits to one empty part. -/
def splitOnChar (sep : Char) : PyStr → List PyStr
  | [] => [[]]
  | c :: rest =>
    if c == sep then [] :: splitOnChar sep rest
    else
      match splitOnChar sep rest with
      | [] => [[c]]
      | h :: t => (c :: h) :: t

/-- Decides whether the first list is a prefix of the second. -/
def isPre : PyStr → PyStr → Bool
  | [], _ => true
  | _ :: _, [] => false
  | a :: ta, b :: tb => a == b && isPre ta tb

/-- Python substring membership, `needle in hay`. -/
def hasSubstring : PyStr → PyStr → Bool
  | [], needle => isPre needle []
  | c :: t, needle => isPre needle (c :: t) || hasSubstring t needle

/-- Python sep.join(xs). -/
def pyJoin (sep : PyStr) (xs : List PyStr) : PyStr := List.intercalate sep xs

/-- Fuel-indexed worker for `pyReplace`.  Only invoked with a non-empty
pattern and with fuel equal to the length of the scanned string, which is
enough because every step consumes at least one character. -/
def pyReplaceFuel (pat repl : PyStr) : Nat → PyStr → PyStr
  | 0, s => s
  | _ + 1, [] => []
  | fuel + 1, c :: t =>
    if isPre pat (c :: t) then
      repl ++ pyReplaceFuel pat repl fuel ((c :: t).drop pat.length)
    else
      c :: pyReplaceFuel pat repl fuel t

/-- Python s.replace(pat, repl): replaces every non-overlapping occurrence,
scanning left to right; an empty pattern interleaves repl around every
character. -/
def pyReplace (s pat repl : PyStr) : PyStr :=
  if pat = [] then repl ++ (s.map (fun c => c :: repl)).flatten
  else pyReplaceFuel pat repl s.length s

/-- Citations and source attributions are carried opaquely by this code;
they are modelled as opaque strings. -/
abbrev Citation := PyStr

/-- Values of the result dictionary built by the fixed-buttons adapter,
which mixes a string (`answer`) with a citation list (`sources`). -/
inductive PyVal where
  | s : PyStr → PyVal
  | cites : List Citation → PyVal
deriving DecidableEq

/-- The value produced by pandas.DataFrame(data, columns=cols).  Rows
shorter than the inferred width are padded with missing values (NaN,
modelled as `none`). -/
structure DataFrame where
  columns : List PyStr
  rows : List (List (Option PyStr))
deriving DecidableEq

/-- Padding of one data row to width `w`, mirroring pandas' conversion of
ragged list-of-lists data to an object array. -/
def padRow (w : Nat) (r : List PyStr) : List (Option PyStr) :=
  r.map some ++ List.replicate (w - r.length) none

/-- The width pandas infers for list-of-lists data: the maximum row length. -/
def rowMaxLen (data : List (List PyStr)) : Nat :=
  data.foldl (fun m r => max m r.length) 0

/-- pandas.DataFrame(data, columns=cols) on list-of-lists data: it raises
(here: returns `none`) exactly when the inferred width differs from the
number of column names; otherwise shorter rows are padded with missing
values.  Empty data with any column list succeeds with an empty frame. -/
def mkDataFrame (cols : List PyStr) (data : List (List PyStr)) : Option DataFrame :=
  if data = [] then some ⟨cols, []⟩
  else if rowMaxLen data = cols.length then some ⟨cols, data.map (padRow cols.length)⟩
  else none

/-- The request shape of bedrock-agent-runtime retrieve_and_generate as the
three source files use it.  The service also accepts an optional sessionId
continuation token; no source file ever supplies one, and the embeddings
record that field explicitly as `none`. -/
structure KBRequest where
  input_text : PyStr
  knowledgeBaseId : PyStr
  modelArn : PyStr
  numberOfResults : Nat
  overrideSearchType : Option PyStr
  sessionId : Option PyStr
deriving DecidableEq

/-- The parts of the retrieve_and_generate response the source reads:
response['output']['text'] (required — its absence would raise, which is
folded into the Except.error case) and response.get('citations', []). -/
structure KBResponse where
  output_text : PyStr
  citations : Option (List Citation)
deriving DecidableEq

/-- The chat_sync request parameters built by app.py's query_qbusiness. -/
structure QBRequest where
  applicationId : PyStr
  userMessage : PyStr
  conversationId : Option PyStr
deriving DecidableEq

/-- The parts of the chat_sync response the source reads, each accessed
with .get and therefore optional. -/
structure QBResponse where
  systemMessage : Option PyStr
  sourceAttributions : Option (List Citation)
  conversationId : Option PyStr
deriving DecidableEq

/-- The normalized result dictionary built by app.py's two adapters. -/
structure AppResult where
  source : PyStr
  answer : PyStr
  sources : List Citation
deriving DecidableEq

/-- The assistant chat message appended by app.py's route-both branch
(the constant role field is omitted). -/
structure ChatMessage where
  content : PyStr
  sources : List Citation
deriving DecidableEq

/-- Association-list lookup, first match wins. -/
def alistLookup {α β : Type} [DecidableEq α] (key : α) : List (α × β) → Option β
  | [] => none
  | (k, v) :: rest => if k = key then some v else alistLookup key rest

/-- Modelled from the spec: one entry of the response cache (spec section
4.3); the cache itself is provided by the Streamlit st.cache_data(ttl=600)
decorator, whose implementation is library code not present under src/. -/
structure CacheEntry (α : Type) where
  value : α
  expiresAt : Nat
deriving DecidableEq

/-- Modelled from the spec: the response cache, keyed by the
(backendId, question) pair. -/
abbrev Cache (α : Type) := List ((PyStr × PyStr) × CacheEntry α)

/-- Modelled from the spec: getOrCompute of spec section 4.3, the
memoization performed by st.cache_data(ttl=600) on the two adapters (the
decorator's implementation lives in the Streamlit library, not under src/).
Looks up (backendId, question); an unexpired entry is returned without
invoking compute; otherwise compute runs and its result is stored with
expiresAt = now + ttlSeconds.  The returned Bool records whether compute
was invoked.  The stored value is whatever compute returned — error results
are not distinguished from successful ones. -/
def getOrCompute {α : Type} (cache : Cache α) (backendId question : PyStr)
    (now ttlSeconds : Nat) (compute : Unit → α) : α × Cache α × Bool :=
  match alistLookup (backendId, question) cache with
  | some entry =>
    if now < entry.expiresAt then (entry.value, cache, false)
    else
      let v := compute ()
      (v, ((backendId, question), ⟨v, now + ttlSeconds⟩) :: cache, true)
  | none =>
    let v := compute ()
    (v, ((backendId, question), ⟨v, now + ttlSeconds⟩) :: cache, true)

namespace App

/-- src/app.py line 56. -/
def KB_ID : PyStr := pyS "HBNUJXVNB8"

/-- src/app.py line 57. -/
def QBUSINESS_APP_ID : PyStr := pyS "71fee8c3-d898-4d1b-b70a-c624128d7028"

/-- src/app.py line 58. -/
def MODEL_ARN : PyStr :=
  pyS "arn:aws:bedrock:us-east-1::foundation-model/anthropic.claude-3-5-sonnet-20240620-v1:0"

/-- src/app.py lines 66-70: the structured-data (Q Business) keyword lexicon. -/
def qbusiness_keywords : List PyStr :=
  [pyS "territory", pyS "sfdc customer", pyS "revenue realization", pyS "partner performance",
   pyS "migration status", pyS "detailed report", pyS "ytd revenue", pyS "spend variance",
   pyS "customer territory code", pyS "engagement id", pyS "migration delivered by"]

/-- src/app.py lines 73-76: the semantic-search (Bedrock KB) keyword lexicon. -/
def bedrock_keywords : List PyStr :=
  [pyS "explain", pyS "how to", pyS "what is", pyS "describe", pyS "summary", pyS "overview",
   pyS "best practices", pyS "recommendations", pyS "challenges", pyS "insights"]

/-- src/app.py route_query (lines 61-86): lower-cases the query, scores it
against both keyword lists (sum of 1 for every keyword contained in the
lowered query) and compares the two scores. -/
def route_query (query : PyStr) : PyStr :=
  let query_lower := pyLower query
  let qbusiness_score := qbusiness_keywords.countP (fun keyword => hasSubstring query_lower keyword)
  let bedrock_score := bedrock_keywords.countP (fun keyword => hasSubstring query_lower keyword)
  if qbusiness_score > bedrock_score then pyS "qbusiness"
  else if bedrock_score > qbusiness_score then pyS "bedrock"
  else pyS "both"

/-- Written from the spec's words (section 4.1): the score of one lexicon
is the number of distinct lexicon phrases occurring as substrings anywhere
in the lower-cased question. -/
def lexiconScore (lexicon : List PyStr) (question : PyStr) : Nat :=
  (lexicon.filter (fun phrase => hasSubstring (pyLower question) phrase)).length

/-- Written from the spec's words (section 4.1): strictly greater
structured score gives qbusiness, strictly greater semantic score gives
bedrock, and equality — including both zero — gives both. -/
def routeSpec (question : PyStr) : PyStr :=
  if lexiconScore qbusiness_keywords question > lexiconScore bedrock_keywords question then
    pyS "qbusiness"
  else if lexiconScore bedrock_keywords question > lexiconScore qbusiness_keywords question then
    pyS "bedrock"
  else pyS "both"

/-- The chat_sync parameters built by query_qbusiness (lines 92-100): the
conversationId is attached only when the session holds a token that is
truthy in Python, that is, a non-empty string. -/
def qb_request (query : PyStr) (conv : Option PyStr) : QBRequest :=
  { applicationId := QBUSINESS_APP_ID, userMessage := query,
    conversationId :=
      match conv with
      | some c => if c = [] then none else some c
      | none => none }

/-- src/app.py query_qbusiness (lines 88-118), the body under the
st.cache_data decorator.  The chat_sync transport is a parameter; the
ambient st.session_state.qbusiness_conversation_id is the explicit `conv`
argument, and the (possibly updated) token is returned alongside the
result.  On an exception the adapter returns a result whose answer is
"Error: " followed by str(e), with empty sources, leaving the token
unchanged. -/
def query_qbusiness (chat_sync : QBRequest → Except PyStr QBResponse)
    (query : PyStr) (conv : Option PyStr) : AppResult × Option PyStr :=
  match chat_sync (qb_request query conv) with
  | .ok response =>
    ({ source := pyS "Q Business",
       answer := response.systemMessage.getD (pyS "No response"),
       sources := response.sourceAttributions.getD [] },
     match response.conversationId with
     | some c => some c
     | none => conv)
  | .error e =>
    ({ source := pyS "Q Business", answer := pyS "Error: " ++ e, sources := [] }, conv)

/-- The retrieve_and_generate request built by query_bedrock_kb (lines
124-138); no continuation token is ever attached (sessionId := none). -/
def bedrock_request (query : PyStr) : KBRequest :=
  { input_text := query, knowledgeBaseId := KB_ID, modelArn := MODEL_ARN,
    numberOfResults := 10, overrideSearchType := none, sessionId := none }

/-- src/app.py query_bedrock_kb (lines 120-150), the body under the
st.cache_data decorator, with the retrieve_and_generate transport as a
parameter.  On an exception the adapter returns a result whose answer is
"Error: " followed by str(e), with empty sources. -/
def query_bedrock_kb (retrieve_and_generate : KBRequest → Except PyStr KBResponse)
    (query : PyStr) : AppResult :=
  match retrieve_and_generate (bedrock_request query) with
  | .ok response =>
    { source := pyS "Bedrock Knowledge Base", answer := response.output_text,
      sources := response.citations.getD [] }
  | .error e =>
    { source := pyS "Bedrock Knowledge Base", answer := pyS "Error: " ++ e, sources := [] }

/-- A line collected by format_tabular_response's scan, src/app.py line 19:
Python `'|' in line and len(line.split('|')) > 2`. -/
def isTableLine (line : PyStr) : Bool :=
  hasSubstring line (pyS "|") && decide ((splitOnChar '|' line).length > 2)

/-- The contiguous run collected by the loop of src/app.py lines 18-25:
lines before the first table line are skipped, and the first non-table
line (blank or not) after the run stops the scan. -/
def tableRunOf (lines : List PyStr) : List PyStr :=
  (lines.dropWhile (fun line => !isTableLine line)).takeWhile isTableLine

/-- Parsing of the collected run, src/app.py lines 30-35: skip any line
containing "---", split the rest on the pipe, strip each cell, keep the
non-empty cells, and keep the non-empty rows. -/
def parseTableRows (table_lines : List PyStr) : List (List PyStr) :=
  table_lines.filterMap (fun line =>
    if hasSubstring line (pyS "---") then none
    else
      let cols := ((splitOnChar '|' line).map pyStrip).filter (fun col => !col.isEmpty)
      if cols.isEmpty then none else some cols)

/-- src/app.py format_tabular_response (lines 11-43).  When the DataFrame
constructor raises, the bare except falls through to (None, text); on
success the remainder is the text with every occurrence of the joined
table block replaced by the empty string. -/
def format_tabular_response (text : PyStr) : Option DataFrame × PyStr :=
  let lines := splitOnChar '\n' text
  let table_lines := tableRunOf lines
  if table_lines.length ≥ 2 then
    let rows := parseTableRows table_lines
    if rows.length ≥ 2 then
      match mkDataFrame (rows.headD []) rows.tail with
      | some df => (some df, pyReplace text (pyJoin (pyS "\n") table_lines) [])
      | none => (none, text)
    else (none, text)
  else (none, text)

/-- The route = both branch of the chat handler, src/app.py lines 205-223:
both adapters are called (each one fails soft on its own), and one
assistant message is appended holding the combined markdown and the
concatenation of the two source lists. -/
def bothBranch (chat_sync : QBRequest → Except PyStr QBResponse)
    (retrieve_and_generate : KBRequest → Except PyStr KBResponse)
    (prompt : PyStr) (conv : Option PyStr) : ChatMessage × Option PyStr :=
  let qb := query_qbusiness chat_sync prompt conv
  let kb := query_bedrock_kb retrieve_and_generate prompt
  ({ content := pyS "**Q Business Analysis:**\n" ++ qb.1.answer ++
       pyS "\n\n**Knowledge Base Insights:**\n" ++ kb.answer,
     sources := qb.1.sources ++ kb.sources }, qb.2)

end App

namespace UMA

/-- src/unified_migration_assistant.py line 60. -/
def blocked_patterns : List PyStr :=
  [pyS "<script", pyS "javascript:", pyS "eval(", pyS "exec("]

/-- src/unified_migration_assistant.py validate_input (lines 53-64). -/
def validate_input (query : PyStr) : Bool × PyStr :=
  if query.length > 500 then (false, pyS "Query too long (max 500 characters)")
  else if blocked_patterns.any (fun pat => hasSubstring (pyLower query) pat) then
    (false, pyS "Invalid input detected")
  else (true, pyS "")

/-- src/unified_migration_assistant.py lines 139-150. -/
def SYSTEM_PROMPT : PyStr :=
  pyS "You are a Migration Health AI Assistant. \n\nIMPORTANT: Always retrieve and analyze actual data from the knowledge base files (Excel sheets, JSON files, PDFs). Do not provide generic responses.\n\nData Sources to query:\n- Detailed_Report: Migration status, customer info, revenue data\n- YTD_Revenue_Progress: Revenue tracking and partner data  \n- Pipeline_Detail: Pipeline opportunities (only for pipeline queries)\n- ARR_Win_Deal: Deal data (only for pipeline queries)\n\nFor \"Show\" or \"List\" queries, provide data in tabular format.\nAlways use actual data from the files, never hypothetical examples."

/-- The enhanced query built by query_knowledge_base (lines 74-87). -/
def enhanced_query (user_query : PyStr) : PyStr :=
  pyS "COMPREHENSIVE DATA RETRIEVAL REQUEST:\n\nQuery: " ++ user_query ++
  pyS "\n\nCRITICAL INSTRUCTIONS:\n1. Search ALL available data sources and files\n2. Retrieve COMPLETE datasets, not just summaries  \n3. Include ALL relevant rows and columns of data\n4. Provide specific numbers, names, and details from the actual files\n5. Show real data from Detailed_Report, YTD_Revenue_Progress, Pipeline_Detail, and ARR_Win_Deal sheets\n6. Include actual customer names, engagement IDs, revenue figures, health statuses\n7. Format data in tables when showing lists or comparisons\n\n" ++
  SYSTEM_PROMPT

/-- The retrieve_and_generate request built by query_knowledge_base
(lines 91-106): 20 results, HYBRID search, no session token. -/
def uma_request (q kb_id : PyStr) : KBRequest :=
  { input_text := q, knowledgeBaseId := kb_id,
    modelArn := pyS "arn:aws:bedrock:us-east-1::foundation-model/anthropic.claude-3-sonnet-20240229-v1:0",
    numberOfResults := 20, overrideSearchType := some (pyS "HYBRID"), sessionId := none }

/-- src/unified_migration_assistant.py query_knowledge_base (lines 66-111).
The second component of the result records the backend requests issued,
which makes the validation short-circuit observable: an invalid query
returns the refusal with an empty request trace, before any backend call. -/
def query_knowledge_base (retrieve_and_generate : KBRequest → Except PyStr KBResponse)
    (user_query kb_id : PyStr) : PyStr × List KBRequest :=
  match validate_input user_query with
  | (false, error_msg) => (pyS "Security Error: " ++ error_msg, [])
  | (true, _) =>
    match retrieve_and_generate (uma_request (enhanced_query user_query) kb_id) with
    | .ok response => (response.output_text, [uma_request (enhanced_query user_query) kb_id])
    | .error e => (pyS "Error details: " ++ e, [uma_request (enhanced_query user_query) kb_id])

end UMA

namespace FB

/-- src/unified_migration_assistant_fixed_buttons.py line 21. -/
def KB_ID : PyStr := pyS "HBNUJXVNB8"

/-- src/unified_migration_assistant_fixed_buttons.py line 23. -/
def MODEL_ARN : PyStr :=
  pyS "arn:aws:bedrock:us-east-1::foundation-model/anthropic.claude-3-5-sonnet-20240620-v1:0"

/-- The retrieve_and_generate request built by the fixed-buttons
query_bedrock_kb (lines 28-42): 20 results, no session token. -/
def kb_request (query : PyStr) : KBRequest :=
  { input_text := query, knowledgeBaseId := KB_ID, modelArn := MODEL_ARN,
    numberOfResults := 20, overrideSearchType := none, sessionId := none }

/-- src/unified_migration_assistant_fixed_buttons.py query_bedrock_kb
(lines 25-52).  The returned dictionary is modelled literally as a
key/value list: note that neither branch carries a source key. -/
def query_bedrock_kb (retrieve_and_generate : KBRequest → Except PyStr KBResponse)
    (query : PyStr) : List (PyStr × PyVal) :=
  match retrieve_and_generate (kb_request query) with
  | .ok response =>
    [(pyS "answer", .s response.output_text),
     (pyS "sources", .cites (response.citations.getD []))]
  | .error e =>
    [(pyS "answer", .s (pyS "Error querying knowledge base: " ++ e)),
     (pyS "sources", .cites [])]

end FB

/-! Helper lemmas about the string primitives and the DataFrame model. -/

theorem isPre_self (s : PyStr) : isPre s s = true := by
  induction s with
  | nil => rfl
  | cons a t ih => simp [isPre, ih]

theorem isPre_append (s v : PyStr) : isPre s (s ++ v) = true := by
  induction s with
  | nil => rfl
  | cons a t ih => simp [isPre, ih]

theorem hasSubstring_of_isPre (hay needle : PyStr) (h : isPre needle hay = true) :
    hasSubstring hay needle = true := by
  cases hay with
  | nil => simpa [hasSubstring] using h
  | cons c t => simp [hasSubstring, h]

theorem hasSubstring_append_left (u s : PyStr) : hasSubstring (u ++ s) s = true := by
  induction u with
  | nil => simpa using hasSubstring_of_isPre s s (isPre_self s)
  | cons c t ih => simp [hasSubstring, ih]

theorem hasSubstring_append_mid (u s v : PyStr) : hasSubstring ((u ++ s) ++ v) s = true := by
  induction u with
  | nil => simpa using hasSubstring_of_isPre (s ++ v) s (isPre_append s v)
  | cons c t ih =>
    show (isPre s (c :: ((t ++ s) ++ v)) || hasSubstring ((t ++ s) ++ v) s) = true
    rw [ih, Bool.or_true]

theorem le_foldl_maxRow (data : List (List PyStr)) (a : Nat) :
    a ≤ data.foldl (fun m r => max m r.length) a := by
  induction data generalizing a with
  | nil => simp
  | cons hd t ih =>
    rw [List.foldl_cons]
    exact le_trans (le_max_left a hd.length) (ih (max a hd.length))

theorem mem_le_foldl_maxRow (data : List (List PyStr)) (r : List PyStr) :
    ∀ a : Nat, r ∈ data → r.length ≤ data.foldl (fun m x => max m x.length) a := by
  induction data with
  | nil => intro a h; cases h
  | cons hd t ih =>
    intro a h
    rw [List.foldl_cons]
    rcases List.mem_cons.mp h with h1 | h2
    · subst h1
      exact le_trans (le_max_right a r.length) (le_foldl_maxRow t (max a r.length))
    · exact ih (max a hd.length) h2

theorem mem_le_rowMaxLen (data : List (List PyStr)) (r : List PyStr) (h : r ∈ data) :
    r.length ≤ rowMaxLen data :=
  mem_le_foldl_maxRow data r 0 h

theorem mkDataFrame_rows_width (cols : List PyStr) (data : List (List PyStr))
    (df : DataFrame) (h : mkDataFrame cols data = some df) :
    ∀ r ∈ df.rows, r.length = df.columns.length := by
  unfold mkDataFrame at h
  split at h
  · cases h
    intro r hr
    simp at hr
  · split at h
    · rename_i hne hmax
      cases h
      intro r hr
      simp only [List.mem_map] at hr
      obtain ⟨r0, hr0, rfl⟩ := hr
      have hle : r0.length ≤ rowMaxLen data := mem_le_rowMaxLen data r0 hr0
      rw [hmax] at hle
      simp [padRow]
      omega
    · exact absurd h (by simp)

theorem dropWhile_eq_nil_of_all {α : Type} (p : α → Bool) (l : List α)
    (h : ∀ x ∈ l, p x = true) : l.dropWhile p = [] := by
  induction l with
  | nil => rfl
  | cons a t ih =>
    rw [List.dropWhile_cons, if_pos (h a (List.mem_cons_self a t))]
    exact ih (fun x hx => h x (List.mem_cons_of_mem a hx))

theorem format_of_no_tableline (t : PyStr)
    (h : ∀ l ∈ splitOnChar '\n' t, App.isTableLine l = false) :
    App.format_tabular_response t = (none, t) := by
  have hrun : App.tableRunOf (splitOnChar '\n' t) = [] := by
    unfold App.tableRunOf
    rw [dropWhile_eq_nil_of_all _ _ (fun x hx => by simp [h x hx])]
    rfl
  simp [App.format_tabular_response, hrun]

namespace App

/-- C1: route_query implements exactly the spec's distinct-phrase-count
comparison: it equals the spec-side routeSpec on every question; a
question matching only semantic-lexicon phrases routes to bedrock and
symmetrically for structured-only questions; equal counts — including
both zero, as for the empty string — give both. -/
theorem route_query_matches_spec (q : PyStr) :
    route_query q = routeSpec q
  ∧ (lexiconScore bedrock_keywords q > 0 → lexiconScore qbusiness_keywords q = 0 →
      route_query q = pyS "bedrock")
  ∧ (lexiconScore qbusiness_keywords q > 0 → lexiconScore bedrock_keywords q = 0 →
      route_query q = pyS "qbusiness")
  ∧ (lexiconScore qbusiness_keywords q = lexiconScore bedrock_keywords q →
      route_query q = pyS "both")
  ∧ route_query [] = pyS "both" := by
  have hq : qbusiness_keywords.countP (fun keyword => hasSubstring (pyLower q) keyword)
      = lexiconScore qbusiness_keywords q := by
    simp [lexiconScore, List.countP_eq_length_filter]
  have hb : bedrock_keywords.countP (fun keyword => hasSubstring (pyLower q) keyword)
      = lexiconScore bedrock_keywords q := by
    simp [lexiconScore, List.countP_eq_length_filter]
  refine ⟨?_, ?_, ?_, ?_, by decide⟩
  · simp only [route_query, routeSpec, hq, hb]
  · intro h1 h2
    simp only [route_query, hq, hb]
    rw [if_neg (by omega), if_pos (by omega)]
  · intro h1 h2
    simp only [route_query, hq, hb]
    rw [if_pos (by omega)]
  · intro h
    simp only [route_query, hq, hb]
    rw [if_neg (by omega), if_neg (by omega)]

end App

namespace App

/-- C5: the conversation token is absent from the first structured request
of a session, a stored non-empty token is passed on the next structured
request, a token returned by a successful structured call overwrites the
stored one, a failing call leaves it unchanged, and the semantic (Bedrock)
request never carries a session token. -/
theorem conversation_token_policy (chat_sync : QBRequest → Except PyStr QBResponse)
    (q : PyStr) (conv : Option PyStr) (resp : QBResponse) (c e : PyStr) :
    (qb_request q none).conversationId = none
  ∧ (c ≠ [] → (qb_request q (some c)).conversationId = some c)
  ∧ (chat_sync (qb_request q conv) = .ok resp → resp.conversationId = some c →
      (query_qbusiness chat_sync q conv).2 = some c)
  ∧ (chat_sync (qb_request q conv) = .error e →
      (query_qbusiness chat_sync q conv).2 = conv)
  ∧ (bedrock_request q).sessionId = none := by
  refine ⟨rfl, ?_, ?_, ?_, rfl⟩
  · intro hc
    simp [qb_request, hc]
  · intro hok hcid
    simp [query_qbusiness, hok, hcid]
  · intro herr
    simp [query_qbusiness, herr]

/-- C5 witness: a successful structured call returning token conv-17 on a
fresh session stores it. -/
theorem conversation_token_policy_w :
    (query_qbusiness (fun _ => Except.ok ⟨some (pyS "hello"), some [], some (pyS "conv-17")⟩)
        (pyS "migration status") none).2 = some (pyS "conv-17") := by
  exact (conversation_token_policy
      (fun _ => Except.ok ⟨some (pyS "hello"), some [], some (pyS "conv-17")⟩)
      (pyS "migration status") none ⟨some (pyS "hello"), some [], some (pyS "conv-17")⟩
      (pyS "conv-17") (pyS "")).2.2.1 rfl rfl

/-- C2 (amended): when the backend call raises, each adapter returns a
result instead of propagating — with its backend's source label, empty
sources and an unchanged token — but the returned text is "Error: "
followed by str(e), so it embeds the raw exception text. -/
theorem adapters_fail_soft (chat_sync : QBRequest → Except PyStr QBResponse)
    (retrieve_and_generate : KBRequest → Except PyStr KBResponse)
    (q : PyStr) (conv : Option PyStr) (e1 e2 : PyStr) :
    (chat_sync (qb_request q conv) = .error e1 →
        query_qbusiness chat_sync q conv
          = ({ source := pyS "Q Business", answer := pyS "Error: " ++ e1, sources := [] }, conv)
      ∧ hasSubstring (query_qbusiness chat_sync q conv).1.answer e1 = true)
  ∧ (retrieve_and_generate (bedrock_request q) = .error e2 →
        query_bedrock_kb retrieve_and_generate q
          = { source := pyS "Bedrock Knowledge Base", answer := pyS "Error: " ++ e2, sources := [] }
      ∧ hasSubstring (query_bedrock_kb retrieve_and_generate q).answer e2 = true) := by
  constructor
  · intro h
    refine ⟨by simp [query_qbusiness, h], ?_⟩
    simp only [query_qbusiness, h]
    exact hasSubstring_append_left (pyS "Error: ") e1
  · intro h
    refine ⟨by simp [query_bedrock_kb, h], ?_⟩
    simp only [query_bedrock_kb, h]
    exact hasSubstring_append_left (pyS "Error: ") e2

/-- C2 witness: a concrete failing chat_sync call yields the soft error
result. -/
theorem adapters_fail_soft_w :
    query_qbusiness (fun _ => Except.error (pyS "boom")) (pyS "q") none
      = ({ source := pyS "Q Business", answer := pyS "Error: boom", sources := [] }, none) := by
  have h := (adapters_fail_soft (fun _ => Except.error (pyS "boom"))
      (fun _ => Except.error (pyS "kaboom")) (pyS "q") none (pyS "boom") (pyS "kaboom")).1 rfl
  exact h.1.trans (by decide)

/-- C2 counterexample: the claim says the returned text never contains the
raw internal exception text, but the adapter's answer to a raised
ExpiredTokenException contains that exception text verbatim. -/
theorem qbusiness_error_embeds_exception_cex :
    hasSubstring
      ((query_qbusiness
          (fun _ => Except.error (pyS "ExpiredTokenException: security token expired"))
          (pyS "migration status report") none).1.answer)
      (pyS "ExpiredTokenException: security token expired") = true := by decide

end App

namespace App

/-- C3 (amended): in the route-both branch, when exactly one backend call
raises, the combined message still contains the other backend's successful
answer text, the failing backend's slot holds the returned string
"Error: " ++ str(e) (a message, not a propagated exception — though it
embeds the raw exception text), and the combined sources are exactly the
surviving backend's citations; neither failure aborts the other branch. -/
theorem both_branch_partial_success (chat_sync : QBRequest → Except PyStr QBResponse)
    (retrieve_and_generate : KBRequest → Except PyStr KBResponse)
    (q : PyStr) (conv : Option PyStr) (e1 e2 : PyStr) (qresp : QBResponse) (kresp : KBResponse) :
    (chat_sync (qb_request q conv) = .error e1 →
     retrieve_and_generate (bedrock_request q) = .ok kresp →
        hasSubstring (bothBranch chat_sync retrieve_and_generate q conv).1.content
          kresp.output_text = true
      ∧ hasSubstring (bothBranch chat_sync retrieve_and_generate q conv).1.content
          (pyS "Error: " ++ e1) = true
      ∧ (bothBranch chat_sync retrieve_and_generate q conv).1.sources = kresp.citations.getD [])
  ∧ (chat_sync (qb_request q conv) = .ok qresp →
     retrieve_and_generate (bedrock_request q) = .error e2 →
        hasSubstring (bothBranch chat_sync retrieve_and_generate q conv).1.content
          (qresp.systemMessage.getD (pyS "No response")) = true
      ∧ hasSubstring (bothBranch chat_sync retrieve_and_generate q conv).1.content
          (pyS "Error: " ++ e2) = true
      ∧ (bothBranch chat_sync retrieve_and_generate q conv).1.sources
          = qresp.sourceAttributions.getD []) := by
  constructor
  · intro h1 h2
    have hc : (bothBranch chat_sync retrieve_and_generate q conv).1.content
        = ((pyS "**Q Business Analysis:**\n" ++ (pyS "Error: " ++ e1))
            ++ pyS "\n\n**Knowledge Base Insights:**\n") ++ kresp.output_text := by
      simp [bothBranch, query_qbusiness, query_bedrock_kb, h1, h2]
    refine ⟨?_, ?_, ?_⟩
    · rw [hc]
      exact hasSubstring_append_left _ _
    · rw [hc]
      have h3 := hasSubstring_append_mid (pyS "**Q Business Analysis:**\n") (pyS "Error: " ++ e1)
        (pyS "\n\n**Knowledge Base Insights:**\n" ++ kresp.output_text)
      simp only [List.append_assoc] at h3 ⊢
      exact h3
    · simp [bothBranch, query_qbusiness, query_bedrock_kb, h1, h2]
  · intro h1 h2
    have hc : (bothBranch chat_sync retrieve_and_generate q conv).1.content
        = ((pyS "**Q Business Analysis:**\n" ++ qresp.systemMessage.getD (pyS "No response"))
            ++ pyS "\n\n**Knowledge Base Insights:**\n") ++ (pyS "Error: " ++ e2) := by
      simp [bothBranch, query_qbusiness, query_bedrock_kb, h1, h2]
    refine ⟨?_, ?_, ?_⟩
    · rw [hc]
      have h3 := hasSubstring_append_mid (pyS "**Q Business Analysis:**\n")
        (qresp.systemMessage.getD (pyS "No response"))
        (pyS "\n\n**Knowledge Base Insights:**\n" ++ (pyS "Error: " ++ e2))
      simp only [List.append_assoc] at h3 ⊢
      exact h3
    · rw [hc]
      exact hasSubstring_append_left _ _
    · simp [bothBranch, query_qbusiness, query_bedrock_kb, h1, h2]

/-- C3 witness: with a failing Q Business backend and a healthy knowledge
base, the combined message still contains the knowledge base's answer. -/
theorem both_branch_partial_success_w :
    hasSubstring
      ((bothBranch (fun _ => Except.error (pyS "boom"))
          (fun _ => Except.ok ⟨pyS "KB fine", some []⟩) (pyS "anything") none).1.content)
      (pyS "KB fine") = true := by
  have h := (both_branch_partial_success (fun _ => Except.error (pyS "boom"))
      (fun _ => Except.ok ⟨pyS "KB fine", some []⟩) (pyS "anything") none (pyS "boom") (pyS "x")
      ⟨none, none, none⟩ ⟨pyS "KB fine", some []⟩).1 rfl rfl
  exact h.1

/-- C3 counterexample: the claim requires the failing slot to hold a safe
error message — one that never contains the raw internal exception text
(spec section 7) — but the combined content of a both dispatch with a
failing Q Business call contains the raw AccessDeniedException text. -/
theorem both_branch_unsafe_error_cex :
    hasSubstring
      ((bothBranch
          (fun _ => Except.error (pyS "AccessDeniedException: role not authorized"))
          (fun _ => Except.ok ⟨pyS "Stable migration health.", some []⟩)
          (pyS "overview of migration status") none).1.content)
      (pyS "AccessDeniedException: role not authorized") = true := by decide

end App

namespace App

/-- C6 counterexample: on the claim's exact input the extraction does not
succeed — it yields absent and returns the text unchanged, because none of
these single-pipe lines satisfies the more-than-two-segments test of
line 19. -/
theorem table_example_absent_cex :
    format_tabular_response (pyS "A | B\n--|--\n1 | 2\n3 | 4")
      = (none, pyS "A | B\n--|--\n1 | 2\n3 | 4") := by decide

/-- C6 (amended): the claim's input yields absent with the text unchanged;
on the pipe-wrapped equivalent of the same table the extraction succeeds
with headers A, B, data rows (1, 2) and (3, 4), and an empty remainder. -/
theorem table_example_piped_succeeds :
    format_tabular_response (pyS "|A|B|\n|---|---|\n|1|2|\n|3|4|")
      = (some ⟨[pyS "A", pyS "B"],
          [[some (pyS "1"), some (pyS "2")], [some (pyS "3"), some (pyS "4")]]⟩, []) := by decide

/-- C7 counterexample: the claim says a ragged row is silently dropped and
the remaining well-formed rows still succeed; in fact the over-wide row
(1, 2, 3) makes the whole extraction yield absent with the text unchanged,
while the same table without the ragged row parses fine. -/
theorem ragged_row_aborts_cex :
    format_tabular_response (pyS "|A|B|\n|1|2|3|\n|x|y|")
        = (none, pyS "|A|B|\n|1|2|3|\n|x|y|")
  ∧ (format_tabular_response (pyS "|A|B|\n|x|y|")).1
        = some ⟨[pyS "A", pyS "B"], [[some (pyS "x"), some (pyS "y")]]⟩ := by decide

/-- C7 (amended): rows are never dropped one by one — a collected data row
wider than the header aborts the whole extraction (the DataFrame
constructor raises and the bare except yields absent) and narrower rows
are padded with missing cells — but every row of a successfully returned
table does have exactly the header's cell count. -/
theorem table_rows_match_header_width (text : PyStr) (df : DataFrame) (rem : PyStr)
    (h : format_tabular_response text = (some df, rem)) :
    ∀ r ∈ df.rows, r.length = df.columns.length := by
  simp only [format_tabular_response] at h
  split at h
  · split at h
    · split at h
      · rename_i df' hdf
        rw [Prod.mk.injEq] at h
        obtain ⟨h1, h2⟩ := h
        injection h1 with h1
        subst h1
        exact mkDataFrame_rows_width _ _ _ hdf
      · exact absurd h (by simp)
    · exact absurd h (by simp)
  · exact absurd h (by simp)

/-- C7 witness: the invariant applied at a concrete succeeding extraction
and the single row of its table. -/
theorem table_rows_match_header_width_w :
    ([some (pyS "x"), some (pyS "y")] : List (Option PyStr)).length
      = [pyS "A", pyS "B"].length := by
  exact table_rows_match_header_width (pyS "|A|B|\n|x|y|")
    ⟨[pyS "A", pyS "B"], [[some (pyS "x"), some (pyS "y")]]⟩ []
    (by decide) [some (pyS "x"), some (pyS "y")] (by decide)

/-- C8 counterexample: extraction on this text succeeds and removes only
the first table run, the remainder still holds a second table, and
re-running the extraction on that remainder succeeds again instead of
yielding absent. -/
theorem remainder_second_table_cex :
    format_tabular_response (pyS "|a|b|\n|1|2|\nX\n|c|d|\n|3|4|")
        = (some ⟨[pyS "a", pyS "b"], [[some (pyS "1"), some (pyS "2")]]⟩, pyS "\nX\n|c|d|\n|3|4|")
  ∧ (format_tabular_response (pyS "\nX\n|c|d|\n|3|4|")).1
        = some ⟨[pyS "c", pyS "d"], [[some (pyS "3"), some (pyS "4")]]⟩ := by decide

/-- C8 (amended): extraction is idempotent on its remainder only when the
remainder retains no table line; in that case re-running the extraction
yields absent with the remainder unchanged. -/
theorem remainder_no_tableline_absent (text rem : PyStr) (df : DataFrame)
    (_h : format_tabular_response text = (some df, rem))
    (hrem : ∀ l ∈ splitOnChar '\n' rem, isTableLine l = false) :
    format_tabular_response rem = (none, rem) :=
  format_of_no_tableline rem hrem

/-- C8 witness: a succeeding extraction whose remainder has no table line,
on which re-extraction yields absent. -/
theorem remainder_no_tableline_absent_w :
    format_tabular_response (pyS "\nEnd") = (none, pyS "\nEnd") := by
  exact remainder_no_tableline_absent (pyS "|a|b|\n|1|2|\nEnd") (pyS "\nEnd")
    ⟨[pyS "a", pyS "b"], [[some (pyS "1"), some (pyS "2")]]⟩ (by decide) (by decide)

end App

namespace UMA

/-- C9: a query longer than 500 characters or containing a blocked pattern
fails validation with the corresponding message; an invalid query makes
query_knowledge_base return the refusal "Security Error: " plus the
validation error text with an empty backend-request trace (the backend is
never invoked); a valid query issues exactly one backend request and the
result is the backend-determined text, not a refusal.  Validation fails
exactly when one of the two conditions holds. -/
theorem validate_short_circuit (retrieve_and_generate : KBRequest → Except PyStr KBResponse)
    (q kb_id : PyStr) :
    ((validate_input q).1 = false →
        query_knowledge_base retrieve_and_generate q kb_id
          = (pyS "Security Error: " ++ (validate_input q).2, [])
      ∧ hasSubstring (query_knowledge_base retrieve_and_generate q kb_id).1
          (validate_input q).2 = true)
  ∧ ((validate_input q).1 = true →
        (query_knowledge_base retrieve_and_generate q kb_id).2
          = [uma_request (enhanced_query q) kb_id]
      ∧ (query_knowledge_base retrieve_and_generate q kb_id).1
          = (match retrieve_and_generate (uma_request (enhanced_query q) kb_id) with
             | .ok resp => resp.output_text
             | .error e => pyS "Error details: " ++ e))
  ∧ (q.length > 500 →
        (validate_input q).1 = false
      ∧ (validate_input q).2 = pyS "Query too long (max 500 characters)")
  ∧ (¬ q.length > 500 →
      blocked_patterns.any (fun pat => hasSubstring (pyLower q) pat) = true →
        (validate_input q).1 = false ∧ (validate_input q).2 = pyS "Invalid input detected")
  ∧ ((validate_input q).1 = false ↔
      q.length > 500 ∨ blocked_patterns.any (fun pat => hasSubstring (pyLower q) pat) = true) := by
  refine ⟨?_, ?_, ?_, ?_, ?_⟩
  · intro hfalse
    rcases hv : validate_input q with ⟨ok, msg⟩
    rw [hv] at hfalse
    simp only at hfalse
    subst hfalse
    constructor
    · simp [query_knowledge_base, hv]
    · simp only [query_knowledge_base, hv]
      exact hasSubstring_append_left (pyS "Security Error: ") msg
  · intro htrue
    rcases hv : validate_input q with ⟨ok, msg⟩
    rw [hv] at htrue
    simp only at htrue
    subst htrue
    constructor
    · simp only [query_knowledge_base, hv]
      cases retrieve_and_generate (uma_request (enhanced_query q) kb_id) <;> rfl
    · simp only [query_knowledge_base, hv]
      cases retrieve_and_generate (uma_request (enhanced_query q) kb_id) <;> rfl
  · intro hlen
    simp [validate_input, hlen]
  · intro hnlen hblocked
    simp [validate_input, hnlen, hblocked]
  · simp only [validate_input]
    by_cases h1 : q.length > 500
    · simp [h1]
    · by_cases h2 : blocked_patterns.any (fun pat => hasSubstring (pyLower q) pat) = true
      · simp [h1, h2]
      · simp [h1, h2]

/-- C9 witness: the blocked query is refused verbatim with no backend call,
before any backend invocation. -/
theorem validate_short_circuit_w :
    query_knowledge_base (fun _ => Except.ok ⟨pyS "ok", some []⟩)
        (pyS "eval(document.cookie)") (pyS "HBNUJXVNB8")
      = (pyS "Security Error: Invalid input detected", []) := by
  have h := (validate_short_circuit (fun _ => Except.ok ⟨pyS "ok", some []⟩)
      (pyS "eval(document.cookie)") (pyS "HBNUJXVNB8")).1 (by decide)
  exact h.1.trans (by decide)

end UMA

/-- C4: two getOrCompute calls for the same (backend, question) key within
the TTL window invoke compute at most once — the second call returns the
stored value without recomputing and leaves the cache unchanged — while a
call after TTL expiry invokes compute again and stores a fresh entry with
a new expiry.  The policy is parametric in the cached value type, so error
results are cached exactly like successful ones. -/
theorem cache_ttl_policy {α : Type} (c0 : Cache α) (b q : PyStr) (t1 t2 t3 ttl : Nat)
    (f1 f2 f3 : Unit → α) (h0 : alistLookup (b, q) c0 = none)
    (h2 : t2 < t1 + ttl) (h3 : t1 + ttl ≤ t3) :
    (getOrCompute c0 b q t1 ttl f1).2.2 = true
  ∧ (getOrCompute c0 b q t1 ttl f1).1 = f1 ()
  ∧ (getOrCompute (getOrCompute c0 b q t1 ttl f1).2.1 b q t2 ttl f2).2.2 = false
  ∧ (getOrCompute (getOrCompute c0 b q t1 ttl f1).2.1 b q t2 ttl f2).1 = f1 ()
  ∧ (getOrCompute (getOrCompute c0 b q t1 ttl f1).2.1 b q t2 ttl f2).2.1
      = (getOrCompute c0 b q t1 ttl f1).2.1
  ∧ (getOrCompute (getOrCompute (getOrCompute c0 b q t1 ttl f1).2.1 b q t2 ttl f2).2.1
      b q t3 ttl f3).2.2 = true
  ∧ (getOrCompute (getOrCompute (getOrCompute c0 b q t1 ttl f1).2.1 b q t2 ttl f2).2.1
      b q t3 ttl f3).1 = f3 ()
  ∧ alistLookup (b, q) (getOrCompute (getOrCompute (getOrCompute c0 b q t1 ttl f1).2.1
      b q t2 ttl f2).2.1 b q t3 ttl f3).2.1 = some ⟨f3 (), t3 + ttl⟩ := by
  have e1 : getOrCompute c0 b q t1 ttl f1
      = (f1 (), ((b, q), ⟨f1 (), t1 + ttl⟩) :: c0, true) := by
    simp [getOrCompute, h0]
  have hl : alistLookup (b, q) (((b, q), (⟨f1 (), t1 + ttl⟩ : CacheEntry α)) :: c0)
      = some ⟨f1 (), t1 + ttl⟩ := by simp [alistLookup]
  have e2 : getOrCompute (((b, q), (⟨f1 (), t1 + ttl⟩ : CacheEntry α)) :: c0) b q t2 ttl f2
      = (f1 (), ((b, q), ⟨f1 (), t1 + ttl⟩) :: c0, false) := by
    simp only [getOrCompute, hl]
    rw [if_pos (by omega)]
  have e3 : getOrCompute (((b, q), (⟨f1 (), t1 + ttl⟩ : CacheEntry α)) :: c0) b q t3 ttl f3
      = (f3 (), ((b, q), ⟨f3 (), t3 + ttl⟩) :: ((b, q), ⟨f1 (), t1 + ttl⟩) :: c0, true) := by
    simp only [getOrCompute, hl]
    rw [if_neg (by omega)]
  rw [e1]
  simp only [e2, e3]
  simp [alistLookup]

/-- C4 witness: with an error result cached at time 0 and ttl 600, the call
at time 599 does not invoke its compute function. -/
theorem cache_ttl_policy_w :
    (getOrCompute
        (getOrCompute ([] : Cache (Except PyStr PyStr)) (pyS "qbusiness")
          (pyS "show migration status") 0 600 (fun _ => Except.error (pyS "Error: down"))).2.1
        (pyS "qbusiness") (pyS "show migration status") 599 600
        (fun _ => Except.ok (pyS "fresh"))).2.2 = false := by
  have h := cache_ttl_policy ([] : Cache (Except PyStr PyStr)) (pyS "qbusiness")
      (pyS "show migration status") 0 599 600 600
      (fun _ => Except.error (pyS "Error: down")) (fun _ => Except.ok (pyS "fresh"))
      (fun _ => Except.ok (pyS "later")) rfl (by omega) (by omega)
  exact h.2.2.1

/-- C1 witness: a question matching only semantic-lexicon phrases routes
to the semantic backend. -/
theorem route_query_matches_spec_w :
    App.route_query (pyS "explain the overview") = pyS "bedrock" := by
  exact (App.route_query_matches_spec (pyS "explain the overview")).2.1
    (by decide) (by decide)

/-- C10 (amended): when the backend raises, each of the two app.py
adapters returns a result with empty sources and its backend's source
label, while the fixed-buttons adapter returns a dict with empty sources
and no source key at all; so an error answer is never rendered with
citations, but not every error result carries a source label. -/
theorem error_results_empty_sources (chat_sync : QBRequest → Except PyStr QBResponse)
    (rg1 rg2 : KBRequest → Except PyStr KBResponse)
    (q : PyStr) (conv : Option PyStr) (e1 e2 e3 : PyStr) :
    (chat_sync (App.qb_request q conv) = .error e1 →
        (App.query_qbusiness chat_sync q conv).1.sources = []
      ∧ (App.query_qbusiness chat_sync q conv).1.source = pyS "Q Business")
  ∧ (rg1 (App.bedrock_request q) = .error e2 →
        (App.query_bedrock_kb rg1 q).sources = []
      ∧ (App.query_bedrock_kb rg1 q).source = pyS "Bedrock Knowledge Base")
  ∧ (rg2 (FB.kb_request q) = .error e3 →
        alistLookup (pyS "sources") (FB.query_bedrock_kb rg2 q) = some (PyVal.cites [])
      ∧ alistLookup (pyS "source") (FB.query_bedrock_kb rg2 q) = none) := by
  refine ⟨?_, ?_, ?_⟩
  · intro h
    simp [App.query_qbusiness, h]
  · intro h
    simp [App.query_bedrock_kb, h]
  · intro h
    simp only [FB.query_bedrock_kb, h]
    constructor
    · simp only [alistLookup]
      rw [if_neg (by decide)]
      simp
    · simp only [alistLookup]
      rw [if_neg (by decide)]
      exact if_neg (by decide)

/-- C10 witness: the three error shapes at concrete failing backends. -/
theorem error_results_empty_sources_w :
    (App.query_qbusiness (fun _ => Except.error (pyS "e1")) (pyS "q") none).1.sources = []
  ∧ (App.query_bedrock_kb (fun _ => Except.error (pyS "e2")) (pyS "q")).sources = []
  ∧ alistLookup (pyS "source")
      (FB.query_bedrock_kb (fun _ => Except.error (pyS "e3")) (pyS "q")) = none := by
  have h := error_results_empty_sources (fun _ => Except.error (pyS "e1"))
      (fun _ => Except.error (pyS "e2")) (fun _ => Except.error (pyS "e3"))
      (pyS "q") none (pyS "e1") (pyS "e2") (pyS "e3")
  exact ⟨(h.1 rfl).1, (h.2.1 rfl).1, (h.2.2 rfl).2⟩

/-- C10 counterexample: the claim says an error result still carries its
backend's source label, but the fixed-buttons adapter's error dict has no
source key at all (its sources are empty, as the claim also says). -/
theorem fb_error_result_lacks_source_cex :
    alistLookup (pyS "source")
        (FB.query_bedrock_kb (fun _ => Except.error (pyS "ThrottlingException"))
          (pyS "partner performance")) = none
  ∧ alistLookup (pyS "sources")
        (FB.query_bedrock_kb (fun _ => Except.error (pyS "ThrottlingException"))
          (pyS "partner performance")) = some (PyVal.cites []) := by decide
